import Mathlib

/-!
# Verification of the a2amcp dispatcher core

Shallow embedding of the routing and task-handling logic of the repository:

* `src/math_agent.py` — `MathAgent.handle_task`: extracts the text of the
  incoming task message, and either asks for input (empty text), completes
  with one artifact, or fails capturing the executor's error.
* `src/dispatcher.py` — `DispatcherAgent.route`: byte-for-byte the same
  task-handling body as `MathAgent.handle_task` (with the same `calculate`
  call), so the single embedding `A2A.handle_task` covers both.
* `src/dispatcherx.py` — `DispatcherAgent.register_agent`,
  `find_suitable_agents` and `handle`: the agent registry and the
  LLM-backed routing decision.

Python dynamic values appearing in task messages are embedded as `A2A.JVal`;
Python `dict`s are association lists with distinct keys; a Python function
that may raise is embedded as a function into `Except String _`, where
`Except.error` carries the exception detail and propagation is explicit.
-/

namespace A2A

/-- A JSON-like dynamic value, as carried in task messages
(`task.message`, `TaskStatus.message` in `python_a2a`). -/
inductive JVal where
  | str : String → JVal
  | num : Int → JVal
  | obj : List (String × JVal) → JVal
  | arr : List JVal → JVal
  | null : JVal

/-- Python `dict.get(key)` on a dict embedded as an association list
(first binding wins; real dicts have distinct keys). -/
def dictGet {α : Type} : List (String × α) → String → Option α
  | [], _ => none
  | (k, v) :: rest, key => if k = key then some v else dictGet rest key

/-- Task lifecycle states (`python_a2a.TaskState`), the four used by the
repository. -/
inductive TaskState where
  | SUBMITTED
  | INPUT_REQUIRED
  | COMPLETED
  | FAILED
deriving DecidableEq

/-- `python_a2a.TaskStatus`: a state plus an optional message payload. -/
structure TaskStatus where
  state : TaskState
  message : Option JVal

/-- One typed content part of an artifact, as built by `handle_task`:
`{"type": "text", "text": result}`. -/
structure Part where
  type : String
  text : String
deriving DecidableEq

/-- One artifact: `{"parts": [...]}`. -/
structure Artifact where
  parts : List Part
deriving DecidableEq

/-- `python_a2a.Task`, restricted to the fields `handle_task` touches:
`message` (an optional dict), `status`, `artifacts`. -/
structure Task where
  id : String
  message : Option (List (String × JVal))
  status : TaskStatus
  artifacts : Option (List Artifact)

/-- The text-extraction prefix of `handle_task` (`math_agent.py` lines
30–33):

```python
message_data = task.message or {}
content = message_data.get("content", {})
text = content.get("text", "") if isinstance(content, dict) else ""
text = text.strip()
```

`task.message or {}` defaults an absent message to the empty dict;
`content.get("text", "")` defaults an absent text field to `""`; a
non-dict content yields `""`; a present but non-string text value makes
the subsequent `text.strip()` raise an uncaught `AttributeError`, embedded
as `Except.error`.  The `.strip()` itself is applied by the caller. -/
def extract_text (message : Option (List (String × JVal))) : Except String String :=
  let message_data := message.getD []
  let content := (dictGet message_data "content").getD (JVal.obj [])
  match content with
  | JVal.obj fields =>
    match dictGet fields "text" with
    | none => Except.ok ""
    | some (JVal.str s) => Except.ok s
    | some _ => Except.error "AttributeError: strip on non-str"
  | _ => Except.ok ""

/-- Python `str.strip()`: drop leading and trailing whitespace
(whitespace per `Char.isWhitespace`). -/
def pyStrip (s : String) : String :=
  String.mk (((s.data.dropWhile Char.isWhitespace).reverse.dropWhile Char.isWhitespace).reverse)

/-- The fixed prompt text used on the empty-input path
(`math_agent.py` line 38). -/
def promptText : String := "Please provide a mathematical expression to calculate."

/-- An agent message with a text content payload, the shape both the
INPUT_REQUIRED and FAILED branches build. -/
def agentTextMessage (text : String) : JVal :=
  JVal.obj [("role", JVal.str "agent"),
            ("content", JVal.obj [("type", JVal.str "text"), ("text", JVal.str text)])]

/-- The prompt-for-input message of the INPUT_REQUIRED branch. -/
def promptMessage : JVal := agentTextMessage promptText

/-- The FAILED-branch message embedding the error detail
(`math_agent.py` line 53). -/
def failMessage (e : String) : JVal :=
  agentTextMessage ("Error calculating expression: " ++ e)

/-- `MathAgent.handle_task` (`math_agent.py` lines 28–55), with the
`calculate` skill injected as an executor that may raise.  The same body is
`DispatcherAgent.route` in `dispatcher.py` lines 21–47.  An `Except.error`
result is an exception escaping the handler (only possible from the
text-extraction prefix); every path through the Python `try` is `Except.ok`. -/
def handle_task (calculate : String → Except String String) (task : Task) :
    Except String Task :=
  match extract_text task.message with
  | Except.error e => Except.error e
  | Except.ok raw =>
    let text := pyStrip raw
    if text = "" then
      Except.ok { task with
        status := ⟨TaskState.INPUT_REQUIRED, some promptMessage⟩ }
    else
      match calculate text with
      | Except.ok result =>
        Except.ok { task with
          artifacts := some [⟨[⟨"text", result⟩]⟩],
          status := ⟨TaskState.COMPLETED, none⟩ }
      | Except.error e =>
        Except.ok { task with
          status := ⟨TaskState.FAILED, some (failMessage e)⟩ }

/-! ## `src/dispatcherx.py`: registry and routing -/

/-- The opaque presentation payload attached to a registered agent
(`google.adk.type.card.Card`); the dispatcher core never inspects it. -/
structure Card where
  payload : String
deriving DecidableEq

/-- `AgentInfo` (`dispatcherx.py` lines 20–25). -/
structure AgentInfo where
  name : String
  description : String
  capabilities : List String
  card : Card
deriving DecidableEq

/-- The dispatcher's `registered_agents` dict, embedded as an
insertion-ordered association list with distinct keys. -/
abbrev Registry : Type := List (String × AgentInfo)

/-- Python dict assignment `d[k] = v`: replace the binding in place when
the key is present, append when it is new. -/
def dictInsert {α : Type} : List (String × α) → String → α → List (String × α)
  | [], key, v => [(key, v)]
  | (k, w) :: rest, key, v =>
    if k = key then (key, v) :: rest else (k, w) :: dictInsert rest key v

/-- `DispatcherAgent.register_agent` (`dispatcherx.py` lines 38–64).
The Python method mutates `self.registered_agents` and returns a `bool`;
the embedding returns the updated registry together with that `bool`.
The source checks `if agent_name in self.registered_agents` only to print
a notice; both branches fall through to the dict assignment and
`return True`. -/
def register_agent (reg : Registry) (agent_name : String) (description : String)
    (capabilities : List String) (card : Card) : Registry × Bool :=
  (dictInsert reg agent_name ⟨agent_name, description, capabilities, card⟩, true)

/-- Number of bindings of a key in an embedded dict. -/
def keyCount {α : Type} : List (String × α) → String → Nat
  | [], _ => 0
  | (k, _) :: rest, key => (if k = key then 1 else 0) + keyCount rest key

/-- `DispatcherAgent.find_suitable_agents` (`dispatcherx.py` lines 66–119),
with the external collaborators injected:

* `apiCall` is the `openai_client.chat.completions.create(...)` call
  (lines 105–110, outside the `try`): `Except.ok` carries the response,
  `Except.error` an exception raised by the call, which propagates;
* `parseAgents` is the body of the `try` block (lines 113–116):
  `response.choices[0].message.content`, `json.loads` and
  `result.get("agents", [])`; any exception there is caught by the
  `except` (lines 117–119) and degrades to the empty list.

The empty-registry check (lines 76–77) returns before either collaborator
is consulted. -/
def find_suitable_agents (reg : Registry) (apiCall : Except String String)
    (parseAgents : String → Except String (List String)) :
    Except String (List String) :=
  if reg.isEmpty then Except.ok []
  else
    match apiCall with
    | Except.error e => Except.error e
    | Except.ok response =>
      match parseAgents response with
      | Except.error _ => Except.ok []
      | Except.ok agents => Except.ok agents

/-- `google.adk.agent.AgentResponse`, the two fields `handle` sets. -/
structure AgentResponse where
  text : String
  card : Option Card
deriving DecidableEq

/-- The fixed no-match response (`dispatcherx.py` line 139). -/
def noMatchResponse : AgentResponse :=
  ⟨"No agent to do this task is found.", none⟩

/-- `DispatcherAgent.handle` (`dispatcherx.py` lines 121–156).  The
single-match branch does `self.registered_agents[agent_name]` with no
membership guard, so a dangling identifier raises `KeyError`; likewise
the `self.registered_agents[name].description` lookups of the
multiple-match branch. -/
def handle (reg : Registry) (apiCall : Except String String)
    (parseAgents : String → Except String (List String)) :
    Except String AgentResponse :=
  match find_suitable_agents reg apiCall parseAgents with
  | Except.error e => Except.error e
  | Except.ok suitable =>
    match suitable with
    | [] => Except.ok noMatchResponse
    | [agent_name] =>
      match dictGet reg agent_name with
      | none => Except.error ("KeyError: " ++ agent_name)
      | some info =>
        Except.ok ⟨"Your request will be handled by " ++ agent_name ++ ".", some info.card⟩
    | many =>
      match many.mapM (fun n => (dictGet reg n).map
          (fun i => "- " ++ n ++ ": " ++ i.description)) with
      | none => Except.error "KeyError"
      | some options =>
        Except.ok ⟨"Multiple agents can handle your request. Please choose one:\n\n"
          ++ String.intercalate "\n" options, none⟩

/-! ## Registry lemmas -/

theorem dictGet_dictInsert_self {α : Type} (l : List (String × α)) (key : String) (v : α) :
    dictGet (dictInsert l key v) key = some v := by
  induction l with
  | nil => simp [dictInsert, dictGet]
  | cons p rest ih =>
    obtain ⟨k, w⟩ := p
    by_cases h : k = key
    · simp [dictInsert, h, dictGet]
    · simp [dictInsert, h, dictGet, ih]

theorem mem_keys_dictInsert {α : Type} (l : List (String × α)) (key a : String) (v : α) :
    a ∈ (dictInsert l key v).map Prod.fst ↔ a ∈ l.map Prod.fst ∨ a = key := by
  induction l with
  | nil => simp [dictInsert]
  | cons p rest ih =>
    obtain ⟨k, w⟩ := p
    by_cases h : k = key
    · subst h
      simp [dictInsert]
      tauto
    · simp [dictInsert, h, ih]
      tauto

theorem nodup_keys_dictInsert {α : Type} (l : List (String × α)) (key : String) (v : α)
    (h : (l.map Prod.fst).Nodup) : ((dictInsert l key v).map Prod.fst).Nodup := by
  induction l with
  | nil => simp [dictInsert]
  | cons p rest ih =>
    obtain ⟨k, w⟩ := p
    simp only [List.map_cons, List.nodup_cons] at h
    by_cases hk : k = key
    · subst hk
      simpa [dictInsert] using h
    · simp only [dictInsert, hk, if_false, List.map_cons, List.nodup_cons]
      refine ⟨fun hmem => ?_, ih h.2⟩
      rcases (mem_keys_dictInsert rest key k v).mp hmem with h1 | h1
      · exact h.1 h1
      · exact hk h1

theorem keyCount_eq_zero {α : Type} (l : List (String × α)) (key : String)
    (h : key ∉ l.map Prod.fst) : keyCount l key = 0 := by
  induction l with
  | nil => rfl
  | cons p rest ih =>
    obtain ⟨k, w⟩ := p
    simp only [List.map_cons, List.mem_cons] at h
    push_neg at h
    have hk : k ≠ key := fun hkk => h.1 hkk.symm
    simp [keyCount, hk, ih h.2]

theorem keyCount_dictInsert_self {α : Type} (l : List (String × α)) (key : String) (v : α)
    (h : (l.map Prod.fst).Nodup) : keyCount (dictInsert l key v) key = 1 := by
  induction l with
  | nil => simp [dictInsert, keyCount]
  | cons p rest ih =>
    obtain ⟨k, w⟩ := p
    simp only [List.map_cons, List.nodup_cons] at h
    by_cases hk : k = key
    · subst hk
      simp [dictInsert, keyCount, keyCount_eq_zero rest k h.1]
    · simp [dictInsert, hk, keyCount, ih h.2]

/-! ## Task-handler path lemmas -/

/-- If text extraction yields a string that strips to empty, `handle_task`
takes the INPUT_REQUIRED branch, leaving every other field of the task
unchanged, for any executor. -/
theorem handle_task_stripped_empty (calculate : String → Except String String)
    (t : Task) (raw : String)
    (hext : extract_text t.message = Except.ok raw) (hempty : pyStrip raw = "") :
    handle_task calculate t
      = Except.ok { t with status := ⟨TaskState.INPUT_REQUIRED, some promptMessage⟩ } := by
  unfold handle_task
  rw [hext]
  simp [hempty]

/-- If the stripped text is non-empty and the executor raises, `handle_task`
takes the FAILED branch, leaving every other field of the task unchanged. -/
theorem handle_task_exec_error (calculate : String → Except String String)
    (t : Task) (raw e : String)
    (hext : extract_text t.message = Except.ok raw) (hne : pyStrip raw ≠ "")
    (herr : calculate (pyStrip raw) = Except.error e) :
    handle_task calculate t
      = Except.ok { t with status := ⟨TaskState.FAILED, some (failMessage e)⟩ } := by
  unfold handle_task
  rw [hext]
  simp [hne, herr]

/-- If the stripped text is non-empty and the executor succeeds with `r`,
`handle_task` takes the COMPLETED branch, attaching exactly one artifact
with one text part equal to `r`. -/
theorem handle_task_exec_ok (calculate : String → Except String String)
    (t : Task) (raw r : String)
    (hext : extract_text t.message = Except.ok raw) (hne : pyStrip raw ≠ "")
    (hok : calculate (pyStrip raw) = Except.ok r) :
    handle_task calculate t
      = Except.ok { t with
          artifacts := some [⟨[⟨"text", r⟩]⟩],
          status := ⟨TaskState.COMPLETED, none⟩ } := by
  unfold handle_task
  rw [hext]
  simp [hne, hok]

/-! ## Claims -/

/-- Claim C1, counterexample.  The claim states that `register` returns
false on every re-registration of an already-registered identifier; but
`register_agent` (`dispatcherx.py` lines 38–64) returns `True`
unconditionally, also when the identifier was already registered: the
second registration of `"A"` below does not return `false`. -/
theorem c1_counterexample :
    ¬ ((register_agent (register_agent [] "A" "first" ["x"] ⟨"c1"⟩).1
        "A" "second" ["y"] ⟨"c2"⟩).2 = false) := by
  decide

/-- Claim C1, amended.  Registering the same identifier twice with
different descriptors leaves exactly one registry entry for that
identifier, reflecting the latest descriptor; but `register_agent`
returns `true` on the first insertion AND on every subsequent
re-registration (it never returns `false`). -/
theorem c1_register_last_write_wins (reg : Registry) (nm d1 d2 : String)
    (caps1 caps2 : List String) (cd1 cd2 : Card)
    (hnd : (reg.map Prod.fst).Nodup) :
    (register_agent reg nm d1 caps1 cd1).2 = true ∧
    (register_agent (register_agent reg nm d1 caps1 cd1).1 nm d2 caps2 cd2).2 = true ∧
    keyCount (register_agent (register_agent reg nm d1 caps1 cd1).1 nm d2 caps2 cd2).1 nm = 1 ∧
    dictGet (register_agent (register_agent reg nm d1 caps1 cd1).1 nm d2 caps2 cd2).1 nm
      = some ⟨nm, d2, caps2, cd2⟩ := by
  refine ⟨rfl, rfl, ?_, ?_⟩
  · exact keyCount_dictInsert_self _ nm _ (nodup_keys_dictInsert reg nm _ hnd)
  · exact dictGet_dictInsert_self _ nm _

/-- Claim C1, witness: the amended theorem applied to the empty registry. -/
theorem c1_register_last_write_wins_witness :
    (register_agent [] "A" "first" ["x"] ⟨"c1"⟩).2 = true ∧
    (register_agent (register_agent [] "A" "first" ["x"] ⟨"c1"⟩).1 "A" "second" ["y"] ⟨"c2"⟩).2 = true ∧
    keyCount (register_agent (register_agent [] "A" "first" ["x"] ⟨"c1"⟩).1 "A" "second" ["y"] ⟨"c2"⟩).1 "A" = 1 ∧
    dictGet (register_agent (register_agent [] "A" "first" ["x"] ⟨"c1"⟩).1 "A" "second" ["y"] ⟨"c2"⟩).1 "A"
      = some ⟨"A", "second", ["y"], ⟨"c2"⟩⟩ :=
  c1_register_last_write_wins [] "A" "first" "second" ["x"] ["y"] ⟨"c1"⟩ ⟨"c2"⟩ (by simp)

/-- Claim C2, counterexample.  The claim states that when the matcher
returns exactly one identifier absent from the registry, routing yields
NoMatch rather than raising.  But `handle` (`dispatcherx.py` line 144)
looks the identifier up with `self.registered_agents[agent_name]` and no
membership guard: with registry `{"A"}` and a matcher returning `["B"]`,
`handle` raises `KeyError` and does not yield the no-match response. -/
theorem c2_counterexample :
    handle [("A", ⟨"A", "descA", ["math"], ⟨"c"⟩⟩)] (Except.ok "resp")
        (fun _ => Except.ok ["B"]) = Except.error "KeyError: B" ∧
    handle [("A", ⟨"A", "descA", ["math"], ⟨"c"⟩⟩)] (Except.ok "resp")
        (fun _ => Except.ok ["B"]) ≠ Except.ok noMatchResponse := by
  refine ⟨rfl, fun h => ?_⟩
  exact Except.noConfusion h

/-- Claim C2, amended.  When the matcher returns exactly one identifier
that is not present in the registry, `handle` raises a `KeyError` (the
dangling reference propagates to the caller) instead of yielding
NoMatch. -/
theorem c2_dangling_single_match_raises (reg : Registry)
    (apiCall : Except String String)
    (parseAgents : String → Except String (List String)) (a : String)
    (hfind : find_suitable_agents reg apiCall parseAgents = Except.ok [a])
    (habs : dictGet reg a = none) :
    handle reg apiCall parseAgents = Except.error ("KeyError: " ++ a) := by
  unfold handle
  rw [hfind]
  simp [habs]

/-- Claim C2, witness: the amended theorem at a concrete registry
containing only `"A"` and a matcher returning `["B"]`. -/
theorem c2_dangling_single_match_raises_witness :
    handle [("A", ⟨"A", "descA", ["math"], ⟨"cA"⟩⟩)] (Except.ok "resp")
        (fun _ => Except.ok ["B"]) = Except.error ("KeyError: " ++ "B") :=
  c2_dangling_single_match_raises [("A", ⟨"A", "descA", ["math"], ⟨"cA"⟩⟩)]
    (Except.ok "resp") (fun _ => Except.ok ["B"]) "B" (by rfl) (by rfl)

/-- Claim C3, counterexample.  The claim states that an error raised by
the underlying matching strategy is caught and degrades to the empty
candidate set with no exception reaching the routing caller.  But in
`find_suitable_agents` the strategy call (`dispatcherx.py` lines 105–110)
sits OUTSIDE the `try` block (lines 113–119), which covers only response
parsing: an exception from the call itself propagates through
`find_suitable_agents` and `handle` to the caller. -/
theorem c3_counterexample :
    find_suitable_agents [("A", ⟨"A", "descA", ["math"], ⟨"c"⟩⟩)]
        (Except.error "APIConnectionError") (fun _ => Except.ok ["A"])
      = Except.error "APIConnectionError" ∧
    find_suitable_agents [("A", ⟨"A", "descA", ["math"], ⟨"c"⟩⟩)]
        (Except.error "APIConnectionError") (fun _ => Except.ok ["A"])
      ≠ Except.ok [] ∧
    handle [("A", ⟨"A", "descA", ["math"], ⟨"c"⟩⟩)]
        (Except.error "APIConnectionError") (fun _ => Except.ok ["A"])
      = Except.error "APIConnectionError" := by
  refine ⟨rfl, fun h => ?_, rfl⟩
  exact Except.noConfusion h

/-- Claim C3, amended.  If the strategy call succeeds but its response is
malformed (parsing raises), the matcher fails closed: it returns the
empty candidate list and routing degrades to NoMatch with no exception.
But if the strategy call itself raises, the exception propagates uncaught
through `find_suitable_agents` and `handle` to the routing caller. -/
theorem c3_matcher_error_handling :
    (∀ (reg : Registry) (response e : String)
       (parseAgents : String → Except String (List String)),
       reg.isEmpty = false → parseAgents response = Except.error e →
       find_suitable_agents reg (Except.ok response) parseAgents = Except.ok [] ∧
       handle reg (Except.ok response) parseAgents = Except.ok noMatchResponse) ∧
    (∀ (reg : Registry) (e : String)
       (parseAgents : String → Except String (List String)),
       reg.isEmpty = false →
       find_suitable_agents reg (Except.error e) parseAgents = Except.error e ∧
       handle reg (Except.error e) parseAgents = Except.error e) := by
  constructor
  · intro reg response e parseAgents hne hparse
    have hfind : find_suitable_agents reg (Except.ok response) parseAgents
        = Except.ok [] := by
      unfold find_suitable_agents
      simp [hne, hparse]
    refine ⟨hfind, ?_⟩
    unfold handle
    rw [hfind]
  · intro reg e parseAgents hne
    have hfind : find_suitable_agents reg (Except.error e) parseAgents
        = Except.error e := by
      unfold find_suitable_agents
      simp [hne]
    refine ⟨hfind, ?_⟩
    unfold handle
    rw [hfind]

/-- Claim C3, witness: both halves of the amended theorem at a concrete
one-agent registry, with a parse failure and a strategy failure. -/
theorem c3_matcher_error_handling_witness :
    (find_suitable_agents [("A", ⟨"A", "descA", ["math"], ⟨"cA"⟩⟩)]
        (Except.ok "garbage") (fun _ => Except.error "JSONDecodeError") = Except.ok [] ∧
     handle [("A", ⟨"A", "descA", ["math"], ⟨"cA"⟩⟩)]
        (Except.ok "garbage") (fun _ => Except.error "JSONDecodeError")
       = Except.ok noMatchResponse) ∧
    (find_suitable_agents [("A", ⟨"A", "descA", ["math"], ⟨"cA"⟩⟩)]
        (Except.error "Timeout") (fun _ => Except.ok ["A"]) = Except.error "Timeout" ∧
     handle [("A", ⟨"A", "descA", ["math"], ⟨"cA"⟩⟩)]
        (Except.error "Timeout") (fun _ => Except.ok ["A"]) = Except.error "Timeout") :=
  ⟨c3_matcher_error_handling.1 [("A", ⟨"A", "descA", ["math"], ⟨"cA"⟩⟩)]
      "garbage" "JSONDecodeError" (fun _ => Except.error "JSONDecodeError")
      (by decide) (by rfl),
   c3_matcher_error_handling.2 [("A", ⟨"A", "descA", ["math"], ⟨"cA"⟩⟩)]
      "Timeout" (fun _ => Except.ok ["A"]) (by decide)⟩

/-- Claim C4, counterexample.  The claim states that no operation changes
the status of a task already in a terminal state.  But `handle_task`
(`math_agent.py` lines 28–55) never inspects the current status: applied
to a task already COMPLETED (with an empty message), it overwrites the
status to INPUT_REQUIRED. -/
theorem c4_counterexample :
    (handle_task (fun s => Except.ok s)
        ⟨"t1", none, ⟨TaskState.COMPLETED, none⟩, none⟩).map (fun t => t.status.state)
      = Except.ok TaskState.INPUT_REQUIRED ∧
    TaskState.INPUT_REQUIRED ≠ TaskState.COMPLETED := by
  refine ⟨rfl, by decide⟩

/-- Claim C4, amended.  `handle_task` contains no terminal-state guard:
its result is entirely independent of the incoming status (which every
branch overwrites), so a task already COMPLETED or FAILED is simply
reprocessed like a fresh one, with its status replaced according to the
message content and executor outcome. -/
theorem c4_status_ignored (calculate : String → Except String String)
    (t : Task) (s1 s2 : TaskStatus) :
    handle_task calculate { t with status := s1 }
      = handle_task calculate { t with status := s2 } := by
  cases t
  rfl

/-- Claim C5.  Routing against the empty registry always yields the
no-match response: `find_suitable_agents` returns before consulting the
matcher (`dispatcherx.py` lines 76–77), so the outcome is NoMatch for
EVERY strategy call result and parser — even a strategy whose invocation
would raise (`Except.error`) never influences or aborts the decision,
which witnesses that the matcher is not invoked. -/
theorem c5_empty_registry_no_match (apiCall : Except String String)
    (parseAgents : String → Except String (List String)) :
    handle ([] : Registry) apiCall parseAgents = Except.ok noMatchResponse := rfl

/-- Claim C6.  If the extracted request text is empty or whitespace-only
after stripping, `handle_task` moves the task to INPUT_REQUIRED carrying
the fixed non-empty prompt message, leaves all other fields (in
particular `artifacts`) unchanged, and — being independent of the
universally-quantified executor — performs no downstream execution. -/
theorem c6_empty_input_prompts (calculate : String → Except String String)
    (t : Task) (raw : String)
    (hext : extract_text t.message = Except.ok raw) (hempty : pyStrip raw = "") :
    handle_task calculate t
      = Except.ok { t with status := ⟨TaskState.INPUT_REQUIRED, some promptMessage⟩ } ∧
    promptText ≠ "" := by
  exact ⟨handle_task_stripped_empty calculate t raw hext hempty, by decide⟩

/-- Claim C6, witness: a whitespace-only request `"   "`. -/
theorem c6_empty_input_prompts_witness :
    handle_task (fun _ => Except.ok "4")
        ⟨"t1", some [("content", JVal.obj [("type", JVal.str "text"), ("text", JVal.str "   ")])],
          ⟨TaskState.SUBMITTED, none⟩, none⟩
      = Except.ok
        ⟨"t1", some [("content", JVal.obj [("type", JVal.str "text"), ("text", JVal.str "   ")])],
          ⟨TaskState.INPUT_REQUIRED, some promptMessage⟩, none⟩ ∧
    promptText ≠ "" :=
  c6_empty_input_prompts (fun _ => Except.ok "4")
    ⟨"t1", some [("content", JVal.obj [("type", JVal.str "text"), ("text", JVal.str "   ")])],
      ⟨TaskState.SUBMITTED, none⟩, none⟩ "   " (by rfl) (by rfl)

/-- Claim C7.  For a non-empty request, an executor error `e` moves the
task to FAILED with a message that contains the error detail (the message
text is a string of the form `pre ++ e ++ post`), and the error does not
escape the handler (the result is `Except.ok`). -/
theorem c7_executor_error_failed (calculate : String → Except String String)
    (t : Task) (raw e : String)
    (hext : extract_text t.message = Except.ok raw) (hne : pyStrip raw ≠ "")
    (herr : calculate (pyStrip raw) = Except.error e) :
    handle_task calculate t
      = Except.ok { t with status := ⟨TaskState.FAILED, some (failMessage e)⟩ } ∧
    ∃ pre post : String, failMessage e = agentTextMessage (pre ++ e ++ post) := by
  refine ⟨handle_task_exec_error calculate t raw e hext hne herr,
    "Error calculating expression: ", "", ?_⟩
  simp [failMessage]

/-- Claim C7, witness: content `"1/0"` with an executor raising
`division by zero`. -/
theorem c7_executor_error_failed_witness :
    handle_task (fun _ => Except.error "division by zero")
        ⟨"t1", some [("content", JVal.obj [("text", JVal.str "1/0")])],
          ⟨TaskState.SUBMITTED, none⟩, none⟩
      = Except.ok
        ⟨"t1", some [("content", JVal.obj [("text", JVal.str "1/0")])],
          ⟨TaskState.FAILED, some (failMessage "division by zero")⟩, none⟩ ∧
    ∃ pre post : String,
      failMessage "division by zero" = agentTextMessage (pre ++ "division by zero" ++ post) :=
  c7_executor_error_failed (fun _ => Except.error "division by zero")
    ⟨"t1", some [("content", JVal.obj [("text", JVal.str "1/0")])],
      ⟨TaskState.SUBMITTED, none⟩, none⟩ "1/0" "division by zero"
    (by rfl) (by decide) (by rfl)

/-- Claim C8.  For a non-empty request, executor success with result `r`
moves the task to COMPLETED with exactly one artifact holding exactly one
text part equal to `r`. -/
theorem c8_executor_success_completed (calculate : String → Except String String)
    (t : Task) (raw r : String)
    (hext : extract_text t.message = Except.ok raw) (hne : pyStrip raw ≠ "")
    (hok : calculate (pyStrip raw) = Except.ok r) :
    handle_task calculate t
      = Except.ok { t with
          artifacts := some [⟨[⟨"text", r⟩]⟩],
          status := ⟨TaskState.COMPLETED, none⟩ } :=
  handle_task_exec_ok calculate t raw r hext hne hok

/-- Claim C8, witness: the claim's own instance — content `"2+2"` with an
executor returning `"4"` yields COMPLETED and one artifact with text `"4"`. -/
theorem c8_executor_success_completed_witness :
    handle_task (fun _ => Except.ok "4")
        ⟨"t1", some [("content", JVal.obj [("type", JVal.str "text"), ("text", JVal.str "2+2")])],
          ⟨TaskState.SUBMITTED, none⟩, none⟩
      = Except.ok
        ⟨"t1", some [("content", JVal.obj [("type", JVal.str "text"), ("text", JVal.str "2+2")])],
          ⟨TaskState.COMPLETED, none⟩, some [⟨[⟨"text", "4"⟩]⟩]⟩ :=
  c8_executor_success_completed (fun _ => Except.ok "4")
    ⟨"t1", some [("content", JVal.obj [("type", JVal.str "text"), ("text", JVal.str "2+2")])],
      ⟨TaskState.SUBMITTED, none⟩, none⟩ "2+2" "4" (by rfl) (by decide) (by rfl)

/-- Claim C9.  A task whose message is absent, whose content is not a
dict, or whose content dict lacks a `"text"` field, is treated as having
empty text: `handle_task` returns it in INPUT_REQUIRED (`Except.ok`, no
exception), exactly as for an explicitly empty request. -/
theorem c9_malformed_message_defensive (calculate : String → Except String String)
    (t : Task)
    (h : t.message = none
       ∨ ∃ md, t.message = some md ∧
           ((∃ c, dictGet md "content" = some c ∧ ∀ fields, c ≠ JVal.obj fields)
            ∨ (∃ fields, dictGet md "content" = some (JVal.obj fields) ∧
                 dictGet fields "text" = none))) :
    handle_task calculate t
      = Except.ok { t with status := ⟨TaskState.INPUT_REQUIRED, some promptMessage⟩ } := by
  have hext : extract_text t.message = Except.ok "" := by
    rcases h with hmsg | ⟨md, hmsg, hcase⟩
    · rw [hmsg]
      rfl
    · rcases hcase with ⟨c, hc, hobj⟩ | ⟨fields, hc, htext⟩
      · rw [hmsg]
        unfold extract_text
        simp only [Option.getD_some, hc]
      · rw [hmsg]
        unfold extract_text
        simp only [Option.getD_some, hc]
        simp [htext]
  exact handle_task_stripped_empty calculate t "" hext rfl

/-- Claim C9, witness: a task with no message at all. -/
theorem c9_malformed_message_defensive_witness :
    handle_task (fun _ => Except.ok "4")
        ⟨"t1", none, ⟨TaskState.SUBMITTED, none⟩, none⟩
      = Except.ok
        ⟨"t1", none, ⟨TaskState.INPUT_REQUIRED, some promptMessage⟩, none⟩ :=
  c9_malformed_message_defensive (fun _ => Except.ok "4")
    ⟨"t1", none, ⟨TaskState.SUBMITTED, none⟩, none⟩ (Or.inl rfl)

/-- Claim C10.  On the FAILED path (non-empty request, executor raises),
`handle_task` modifies only the `status` field: `id`, `message` and in
particular `artifacts` are returned unchanged (the Python `try` assigns
`task.artifacts` only after `self.calculate` has returned, so a raising
executor never reaches that assignment). -/
theorem c10_failed_path_frame (calculate : String → Except String String)
    (t : Task) (raw e : String)
    (hext : extract_text t.message = Except.ok raw) (hne : pyStrip raw ≠ "")
    (herr : calculate (pyStrip raw) = Except.error e) :
    ∃ t' : Task, handle_task calculate t = Except.ok t' ∧
      t'.artifacts = t.artifacts ∧ t'.id = t.id ∧ t'.message = t.message ∧
      t'.status.state = TaskState.FAILED :=
  ⟨{ t with status := ⟨TaskState.FAILED, some (failMessage e)⟩ },
    handle_task_exec_error calculate t raw e hext hne herr, rfl, rfl, rfl, rfl⟩

/-- Claim C10, witness: a task that already carries an artifact keeps it
on the FAILED path. -/
theorem c10_failed_path_frame_witness :
    ∃ t' : Task,
      handle_task (fun _ => Except.error "boom")
          ⟨"t1", some [("content", JVal.obj [("text", JVal.str "1/0")])],
            ⟨TaskState.SUBMITTED, none⟩, some [⟨[⟨"text", "old"⟩]⟩]⟩
        = Except.ok t' ∧
      t'.artifacts = some [⟨[⟨"text", "old"⟩]⟩] ∧ t'.id = "t1" ∧
      t'.message = some [("content", JVal.obj [("text", JVal.str "1/0")])] ∧
      t'.status.state = TaskState.FAILED :=
  c10_failed_path_frame (fun _ => Except.error "boom")
    ⟨"t1", some [("content", JVal.obj [("text", JVal.str "1/0")])],
      ⟨TaskState.SUBMITTED, none⟩, some [⟨[⟨"text", "old"⟩]⟩]⟩ "1/0" "boom"
    (by rfl) (by decide) (by rfl)

end A2A
